import Mathlib

/-!
Shallow embedding of `co2_stats.py`: a persistent singly-linked list of
country-year CO2 records, a validated predicate filter over it, a length
function, and seven derived analytical queries.

Modelling conventions:
* The Python linked list (`RLNode` / `None`) is modelled as `List Row`,
  with Python `None` corresponding to `[]` (the empty list): `RLNode(f, r)`
  is `f :: r`.  The source uses the same object `None` both for the empty
  collection and for the "no result" outcome of the derived queries.
* Python `float` values are modelled as exact rationals `ℚ`; Python `int`
  as `ℤ`.  All comparisons in the source (`<`, `>`, `abs (x - y) < 1e-9`)
  are order comparisons that the rational model represents faithfully on
  exactly-representable inputs.
* Python exceptions (`ValueError` from predicate validation,
  `TypeError` / `ZeroDivisionError` from `/` on missing or zero operands)
  are modelled with `Except String`.
* The power expression of `answer_7` (`** (1/30)` and `** 50`) is
  modelled over `ℂ` with the principal-branch complex power
  (`Complex.cpow`) and the monoid power for the integer exponent: CPython
  evaluates a float power with a negative base and a non-integral
  exponent by delegating to the principal-branch complex power, so the
  complex model agrees with the source for positive, zero and negative
  ratios alike (a positive ratio gives a real value, embedded in `ℂ`).
-/

namespace CO2Stats

/-- A Python runtime value passed as the `value` argument of `filter`:
a string, an int, a float, or `None` (the source's `answer_3`/`answer_4`
really do pass `None` when the reference record's field is missing). -/
inductive Value where
  | vstr (s : String)
  | vint (n : Int)
  | vfloat (q : ℚ)
  | vnone
deriving DecidableEq, Repr

/-- Python `isinstance(value, str)`. -/
def Value.isStr : Value → Bool
  | .vstr _ => true
  | _ => false

/-- Python `isinstance(value, int)`. -/
def Value.isInt : Value → Bool
  | .vint _ => true
  | _ => false

/-- Python `isinstance(value, (int, float))`. -/
def Value.isNum : Value → Bool
  | .vint _ => true
  | .vfloat _ => true
  | _ => false

/-- Python `float(value)` on a value already validated to be numeric
(the other branches are unreachable after validation). -/
def Value.toRat : Value → ℚ
  | .vint n => (n : ℚ)
  | .vfloat q => q
  | _ => 0

/-- The eight recognized field names (`FieldName` literal type in the source). -/
inductive FieldName where
  | name
  | year
  | electricity_and_heat_co2_emissions
  | electricity_and_heat_co2_emissions_per_capita
  | energy_co2_emissions
  | energy_co2_emissions_per_capita
  | total_co2_emissions_excluding_lucf
  | total_co2_emissions_excluding_lucf_per_capita
deriving DecidableEq, Repr

/-- The three comparators (`CompType` literal type in the source). -/
inductive CompType where
  | less_than
  | equal
  | greater_than
deriving DecidableEq, Repr

/-- One country-year observation (the frozen dataclass `Row`):
`name` and `year` are always present, the six emission fields are
`Optional[float]`, with `none` for missing data. -/
structure Row where
  name : String
  year : Int
  electricity_and_heat_co2_emissions : Option ℚ
  electricity_and_heat_co2_emissions_per_capita : Option ℚ
  energy_co2_emissions : Option ℚ
  energy_co2_emissions_per_capita : Option ℚ
  total_co2_emissions_excluding_lucf : Option ℚ
  total_co2_emissions_excluding_lucf_per_capita : Option ℚ
deriving DecidableEq, Repr

/-- `getattr(r, field)` restricted to the six emission fields
(the `name` and `year` cases are handled separately in `keepRow`,
exactly as `keep_row` branches on the field first). -/
def Row.emissionVal (r : Row) : FieldName → Option ℚ
  | .electricity_and_heat_co2_emissions => r.electricity_and_heat_co2_emissions
  | .electricity_and_heat_co2_emissions_per_capita =>
      r.electricity_and_heat_co2_emissions_per_capita
  | .energy_co2_emissions => r.energy_co2_emissions
  | .energy_co2_emissions_per_capita => r.energy_co2_emissions_per_capita
  | .total_co2_emissions_excluding_lucf => r.total_co2_emissions_excluding_lucf
  | .total_co2_emissions_excluding_lucf_per_capita =>
      r.total_co2_emissions_excluding_lucf_per_capita
  | _ => none

/-- True exactly on the six emission fields. -/
def FieldName.isEmission : FieldName → Bool
  | .name => false
  | .year => false
  | _ => true

/-- An `Optional[float]` Python value seen as a runtime `Value`
(`answer_3`/`answer_4` pass `us_value` to `filter` this way). -/
def optToValue : Option ℚ → Value
  | some q => .vfloat q
  | none => .vnone

/-- The absolute tolerance `1e-9` used by the `equal` comparator on
emission fields. -/
def tol : ℚ := 1 / 1000000000

/-- The inner `keep_row` of `filter` (lines 117-142): decides whether a
record is kept, assuming the predicate has already passed validation.
`name`: string equality; `year`: exact integer comparison; emission
fields: a missing value is never kept, `equal` uses the `1e-9` absolute
tolerance with a strict bound, `less_than`/`greater_than` are strict. -/
def keepRow (field : FieldName) (comp : CompType) (value : Value) (r : Row) : Bool :=
  match field with
  | .name =>
      match value with
      | .vstr s => r.name == s
      | _ => false
  | .year =>
      match value with
      | .vint n =>
          match comp with
          | .less_than => r.year < n
          | .equal => r.year == n
          | .greater_than => r.year > n
      | _ => false
  | f =>
      match r.emissionVal f with
      | none => false
      | some v =>
          let target := value.toRat
          match comp with
          | .less_than => v < target
          | .greater_than => v > target
          | .equal => |v - target| < tol

/-- The recursive traversal of `filter` (lines 144-151): filter the rest,
then cons the head back exactly when `keep_row` holds.  Python `None` is
`[]`, `RLNode(f, r)` is `f :: r`. -/
def filterRows (field : FieldName) (comp : CompType) (value : Value) :
    List Row → List Row
  | [] => []
  | f :: r =>
      let filtered_rest := filterRows field comp value r
      if keepRow field comp value f then f :: filtered_rest else filtered_rest

/-- `filter(ll, field, comp, value)` (lines 95-151): validates the
predicate, raising `ValueError` (modelled as `.error`) when it is
violated, then keeps exactly the matching records.  The source's check
`comp not in (less_than, equal, greater_than)` is always false here
because `CompType` has exactly those three constructors. -/
def filter (ll : List Row) (field : FieldName) (comp : CompType) (value : Value) :
    Except String (List Row) :=
  match field with
  | .name =>
      if comp != CompType.equal || !value.isStr then
        .error "name supports only comp=equal with a string value"
      else
        .ok (filterRows .name comp value ll)
  | .year =>
      if !value.isInt then
        .error "year supports less_than/equal/greater_than with an int value"
      else
        .ok (filterRows .year comp value ll)
  | f =>
      if !value.isNum then
        .error "numeric comparison value must be int or float"
      else
        .ok (filterRows f comp value ll)

/-- `listlen` (lines 68-73): length of the linked list by structural
recursion. -/
def listlen : List Row → Nat
  | [] => 0
  | _ :: r => 1 + listlen r

/-- Python `a / b` on two `Optional[float]` operands: `TypeError` when
either operand is `None`, `ZeroDivisionError` when the divisor is zero,
the exact quotient otherwise. -/
def pydiv (a b : Option ℚ) : Except String ℚ :=
  match a, b with
  | some x, some y =>
      if y = 0 then .error "ZeroDivisionError: float division by zero"
      else .ok (x / y)
  | _, _ => .error "TypeError: unsupported operand type for /"

/-- `answer_1` (lines 155-158): number of rows for the year 2000. -/
def answer_1 (rows : List Row) : Except String Nat :=
  match filter rows .year .equal (.vint 2000) with
  | .error e => .error e
  | .ok rows_2000 => .ok (listlen rows_2000)

/-- `answer_2` (lines 162-163): all rows associated with Mexico. -/
def answer_2 (rows : List Row) : Except String (List Row) :=
  filter rows .name .equal (.vstr "Mexico")

/-- `answer_3` (lines 167-183): rows of 1990 with per-capita total
emissions strictly greater than the first United States 1990 row's value.
Python returns `None` ("no result") when the US has no 1990 row; that
`None` is the empty list `[]` of the model. -/
def answer_3 (rows : List Row) : Except String (List Row) :=
  match filter rows .name .equal (.vstr "United States") with
  | .error e => .error e
  | .ok us =>
    match filter us .year .equal (.vint 1990) with
    | .error e => .error e
    | .ok us_1990 =>
      match us_1990 with
      | [] => .ok []
      | r :: _ =>
        match filter rows .year .equal (.vint 1990) with
        | .error e => .error e
        | .ok all_1990 =>
            filter all_1990 .total_co2_emissions_excluding_lucf_per_capita
              .greater_than
              (optToValue r.total_co2_emissions_excluding_lucf_per_capita)

/-- `answer_4` (lines 187-203): same as `answer_3` with the year 2020. -/
def answer_4 (rows : List Row) : Except String (List Row) :=
  match filter rows .name .equal (.vstr "United States") with
  | .error e => .error e
  | .ok us =>
    match filter us .year .equal (.vint 2020) with
    | .error e => .error e
    | .ok us_2020 =>
      match us_2020 with
      | [] => .ok []
      | r :: _ =>
        match filter rows .year .equal (.vint 2020) with
        | .error e => .error e
        | .ok all_2020 =>
            filter all_2020 .total_co2_emissions_excluding_lucf_per_capita
              .greater_than
              (optToValue r.total_co2_emissions_excluding_lucf_per_capita)

/-- `answer_5` (lines 207-219): the approximate population of Luxembourg
in 2014, total emissions divided by per-capita emissions of the first
matching record; `.ok none` is Python's `return None` ("no result"). -/
def answer_5 (rows : List Row) : Except String (Option ℚ) :=
  match filter rows .name .equal (.vstr "Luxembourg") with
  | .error e => .error e
  | .ok lux =>
    match filter lux .year .equal (.vint 2014) with
    | .error e => .error e
    | .ok lux_2014 =>
      match lux_2014 with
      | [] => .ok none
      | r :: _ =>
        match pydiv r.total_co2_emissions_excluding_lucf
          r.total_co2_emissions_excluding_lucf_per_capita with
        | .error e => .error e
        | .ok q => .ok (some q)

/-- `answer_6` (lines 224-237): multiplier increase of China's
electricity-and-heat emissions from 1990 to 2020 (`e2020 / e1990` on the
first matching rows; the division has no guard in the source). -/
def answer_6 (rows : List Row) : Except String (Option ℚ) :=
  match filter rows .name .equal (.vstr "China") with
  | .error e => .error e
  | .ok china =>
    match filter china .year .equal (.vint 1990),
          filter china .year .equal (.vint 2020) with
    | .error e, _ => .error e
    | _, .error e => .error e
    | .ok c1990, .ok c2020 =>
      match c1990, c2020 with
      | [], _ => .ok none
      | _, [] => .ok none
      | r90 :: _, r20 :: _ =>
        match pydiv r20.electricity_and_heat_co2_emissions
          r90.electricity_and_heat_co2_emissions with
        | .error e => .error e
        | .ok q => .ok (some q)

/-- `answer_7` (lines 241-254): projection of China's
electricity-and-heat emissions in 2070:
`e2020 * ((e2020 / e1990) ** (1/30)) ** 50`.  The value is computed in
`ℂ`: Python returns a float for a nonnegative ratio (the real value,
embedded in `ℂ`) and, for a negative ratio, the principal-branch complex
power that `Complex.cpow` defines; `** 50` is the monoid power in both. -/
noncomputable def answer_7 (rows : List Row) : Except String (Option ℂ) :=
  match filter rows .name .equal (.vstr "China") with
  | .error e => .error e
  | .ok china =>
    match filter china .year .equal (.vint 1990),
          filter china .year .equal (.vint 2020) with
    | .error e, _ => .error e
    | _, .error e => .error e
    | .ok c1990, .ok c2020 =>
      match c1990, c2020 with
      | [], _ => .ok none
      | _, [] => .ok none
      | r90 :: _, r20 :: _ =>
        match pydiv r20.electricity_and_heat_co2_emissions
          r90.electricity_and_heat_co2_emissions with
        | .error e => .error e
        | .ok q =>
          let growth_rate : ℂ := (q : ℂ) ^ ((1 : ℂ) / 30)
          let e2020 : ℚ := (r20.electricity_and_heat_co2_emissions).getD 0
          .ok (some ((e2020 : ℂ) * growth_rate ^ (50 : ℕ)))

/-- The validation predicate of `filter` (lines 98-115), as a Boolean:
`name` requires `equal` with a string, `year` requires an int, emission
fields require a numeric value. -/
def validPred (field : FieldName) (comp : CompType) (value : Value) : Bool :=
  match field with
  | .name => comp == CompType.equal && value.isStr
  | .year => value.isInt
  | _ => value.isNum

/-- The United States rows of a given year, filtered by name then year in
the order `answer_3`/`answer_4` compose their filters. -/
def usYear (y : Int) (rows : List Row) : List Row :=
  filterRows .year .equal (.vint y)
    (filterRows .name .equal (.vstr "United States") rows)

/-- The Luxembourg rows of 2014, filtered by name then year as in
`answer_5`. -/
def lux2014 (rows : List Row) : List Row :=
  filterRows .year .equal (.vint 2014)
    (filterRows .name .equal (.vstr "Luxembourg") rows)

/-- The China rows of a given year, filtered by name then year as in
`answer_6`/`answer_7`. -/
def chinaYear (y : Int) (rows : List Row) : List Row :=
  filterRows .year .equal (.vint y)
    (filterRows .name .equal (.vstr "China") rows)

/-- Spec-side predicate, following the spec's words for "the record's
field equals the value": exact string equality for `name`, exact integer
equality for `year`, and for emission fields a present value within the
`1e-9` absolute-difference tolerance (a missing value never equals). -/
def specFieldEquals (field : FieldName) (value : Value) (r : Row) : Bool :=
  match field with
  | .name =>
      match value with
      | .vstr s => r.name == s
      | _ => false
  | .year =>
      match value with
      | .vint n => r.year == n
      | _ => false
  | f =>
      match r.emissionVal f with
      | none => false
      | some v => |v - value.toRat| < tol

/-- A sample record builder for concrete witnesses. -/
def mkRow (nm : String) (yr : Int) (e1 e2 e3 e4 e5 e6 : Option ℚ) : Row :=
  ⟨nm, yr, e1, e2, e3, e4, e5, e6⟩

/-- A United States 1990 record whose per-capita total field is missing. -/
def usRow1990Missing : Row :=
  mkRow "United States" 1990 none none none none none none

/-- A United States 2020 record whose per-capita total field is missing. -/
def usRow2020Missing : Row :=
  mkRow "United States" 2020 none none none none none none

/-- A United States 1990 record with per-capita total value 19. -/
def usRow1990 : Row :=
  mkRow "United States" 1990 none none none none (some 5000) (some 19)

/-- A United States 2020 record with per-capita total value 14. -/
def usRow2020 : Row :=
  mkRow "United States" 2020 none none none none (some 4500) (some 14)

/-- A Qatar 1990 record with per-capita total value 30. -/
def qatarRow1990 : Row :=
  mkRow "Qatar" 1990 none none none none (some 30) (some 30)

/-- A Qatar 2020 record with per-capita total value 32. -/
def qatarRow2020 : Row :=
  mkRow "Qatar" 2020 none none none none (some 32) (some 32)

/-- A Luxembourg 2014 record with total 9000 and per-capita 16. -/
def luxRow2014 : Row :=
  mkRow "Luxembourg" 2014 none none none none (some 9000) (some 16)

/-- A Luxembourg 2014 record whose per-capita total field is missing. -/
def luxRow2014Missing : Row :=
  mkRow "Luxembourg" 2014 none none none none (some 9000) none

/-- A China 1990 record with electricity-and-heat value 700. -/
def chinaRow1990 : Row :=
  mkRow "China" 1990 (some 700) none none none none none

/-- A China 2020 record with electricity-and-heat value 5600. -/
def chinaRow2020 : Row :=
  mkRow "China" 2020 (some 5600) none none none none none

/-- A China 1990 record whose electricity-and-heat field is missing. -/
def chinaRow1990Missing : Row :=
  mkRow "China" 1990 none none none none none none

/-- A record with `energy_co2_emissions` exactly `1e-9`, at the boundary
of the tolerance. -/
def boundaryRow : Row :=
  mkRow "Lithuania" 1994 none none (some (1 / 1000000000)) none none none

/-- The recursive traversal agrees with `List.filter` on the kept-row
predicate. -/
theorem filterRows_eq_filter (f : FieldName) (c : CompType) (v : Value)
    (C : List Row) : filterRows f c v C = C.filter (keepRow f c v) := by
  induction C with
  | nil => rfl
  | cons a t ih =>
      by_cases h : keepRow f c v a = true <;>
        simp [filterRows, List.filter_cons, h, ih]

/-- A predicate passing validation makes `filter` succeed with the
traversal's result. -/
theorem filter_eq_ok_of_valid (C : List Row) (f : FieldName) (c : CompType)
    (v : Value) (h : validPred f c v = true) :
    filter C f c v = .ok (filterRows f c v C) := by
  cases f <;> simp [validPred] at h <;> simp [filter, h]

/-- On an emission field a missing value is never kept. -/
theorem keepRow_of_missing (f : FieldName) (c : CompType) (v : Value) (r : Row)
    (hf : f.isEmission = true) (hr : r.emissionVal f = none) :
    keepRow f c v r = false := by
  cases f <;> simp [FieldName.isEmission] at hf <;> simp [keepRow, hr]

/-- C1: for every collection and every predicate passing validation,
`filter` succeeds and returns a subsequence of the input containing
exactly the records that satisfy the predicate, in the same relative
order. -/
theorem filter_subseq_exact (C : List Row) (f : FieldName) (c : CompType)
    (v : Value) (h : validPred f c v = true) :
    ∃ L, filter C f c v = .ok L ∧ L.Sublist C ∧
      ∀ r, r ∈ L ↔ r ∈ C ∧ keepRow f c v r = true := by
  refine ⟨filterRows f c v C, filter_eq_ok_of_valid C f c v h, ?_, ?_⟩
  · rw [filterRows_eq_filter]
    exact List.filter_sublist C
  · intro r
    rw [filterRows_eq_filter]
    exact List.mem_filter

/-- Witness for C1 at a concrete collection and predicate. -/
theorem filter_subseq_exact_witness :
    validPred .year .equal (.vint 1990) = true ∧
    ∃ L, filter [usRow1990, qatarRow2020] .year .equal (.vint 1990) = .ok L ∧
      L.Sublist [usRow1990, qatarRow2020] ∧
      ∀ r, r ∈ L ↔ r ∈ [usRow1990, qatarRow2020] ∧
        keepRow .year .equal (.vint 1990) r = true :=
  ⟨by decide, filter_subseq_exact [usRow1990, qatarRow2020] .year .equal
    (.vint 1990) (by decide)⟩

/-- C8: filtering twice with the same valid predicate gives the same
collection as filtering once. -/
theorem filter_idempotent (C : List Row) (f : FieldName) (c : CompType)
    (v : Value) (h : validPred f c v = true) :
    ∃ L, filter C f c v = .ok L ∧ filter L f c v = .ok L := by
  refine ⟨filterRows f c v C, filter_eq_ok_of_valid C f c v h, ?_⟩
  rw [filter_eq_ok_of_valid _ f c v h]
  rw [filterRows_eq_filter, filterRows_eq_filter, List.filter_filter]
  simp

/-- Witness for C8 at a concrete collection and predicate. -/
theorem filter_idempotent_witness :
    validPred .name .equal (.vstr "Qatar") = true ∧
    ∃ L, filter [usRow1990, qatarRow2020] .name .equal (.vstr "Qatar") = .ok L ∧
      filter L .name .equal (.vstr "Qatar") = .ok L :=
  ⟨by decide, filter_idempotent [usRow1990, qatarRow2020] .name .equal
    (.vstr "Qatar") (by decide)⟩

/-- C2: every violation of the validation rules makes `filter` raise:
`name` with a comparator other than `equal` or with a non-string value,
`year` with a non-integer value, an emission field with a non-numeric
value. -/
theorem filter_invalid_raises (C : List Row)
    (c1 : CompType) (v1 : Value) (h1 : c1 ≠ CompType.equal ∨ v1.isStr = false)
    (c2 : CompType) (v2 : Value) (h2 : v2.isInt = false)
    (f3 : FieldName) (hf3 : f3.isEmission = true)
    (c3 : CompType) (v3 : Value) (h3 : v3.isNum = false) :
    (∃ e, filter C .name c1 v1 = .error e) ∧
    (∃ e, filter C .year c2 v2 = .error e) ∧
    (∃ e, filter C f3 c3 v3 = .error e) := by
  have hc : (c1 != CompType.equal || !v1.isStr) = true := by
    rcases h1 with h | h
    · simp [bne_iff_ne, h]
    · simp [h]
  refine ⟨⟨"name supports only comp=equal with a string value", ?_⟩,
    ⟨"year supports less_than/equal/greater_than with an int value", ?_⟩, ?_⟩
  · simp [filter, hc]
  · simp [filter, h2]
  · cases f3 <;> simp [FieldName.isEmission] at hf3 <;>
      exact ⟨"numeric comparison value must be int or float", by simp [filter, h3]⟩

/-- Witness for C2 at concrete invalid predicates, among them the spec's
example of the string "1990" as a year value. -/
theorem filter_invalid_raises_witness :
    (CompType.less_than ≠ CompType.equal ∨ Value.isStr (.vstr "X") = false) ∧
    Value.isInt (.vstr "1990") = false ∧
    FieldName.isEmission .energy_co2_emissions = true ∧
    Value.isNum (.vstr "x") = false ∧
    (∃ e, filter [usRow1990] .name .less_than (.vstr "X") = .error e) ∧
    (∃ e, filter [usRow1990] .year .equal (.vstr "1990") = .error e) ∧
    (∃ e, filter [usRow1990] .energy_co2_emissions .equal (.vstr "x") = .error e) := by
  have h := filter_invalid_raises [usRow1990] .less_than (.vstr "X")
    (Or.inl (by decide)) .equal (.vstr "1990") (by decide)
    .energy_co2_emissions (by decide) .equal (.vstr "x") (by decide)
  exact ⟨Or.inl (by decide), by decide, by decide, by decide, h.1, h.2.1, h.2.2⟩

/-- C3: a record whose value for the filtered emission field is missing
is never in the output of `filter`, whatever the comparator and the
numeric target value. -/
theorem filter_never_keeps_missing (C : List Row) (f : FieldName) (c : CompType)
    (v : Value) (hf : f.isEmission = true) (hv : v.isNum = true) (r : Row)
    (hr : r.emissionVal f = none) (L : List Row) (hL : filter C f c v = .ok L) :
    r ∉ L := by
  have hvalid : validPred f c v = true := by
    cases f <;> simp [FieldName.isEmission] at hf <;> simpa [validPred] using hv
  rw [filter_eq_ok_of_valid C f c v hvalid] at hL
  injection hL with hh
  subst hh
  rw [filterRows_eq_filter]
  intro hmem
  rw [List.mem_filter] at hmem
  rw [keepRow_of_missing f c v r hf hr] at hmem
  exact absurd hmem.2 (by simp)

/-- Witness for C3 at a concrete record with a missing emission value. -/
theorem filter_never_keeps_missing_witness :
    FieldName.isEmission .energy_co2_emissions = true ∧
    Value.isNum (.vint 0) = true ∧
    Row.emissionVal usRow1990 .energy_co2_emissions = none ∧
    filter [usRow1990] .energy_co2_emissions .greater_than (.vint 0) = .ok [] ∧
    usRow1990 ∉ ([] : List Row) :=
  ⟨by decide, by decide, by decide, rfl,
    filter_never_keeps_missing [usRow1990] .energy_co2_emissions .greater_than
      (.vint 0) (by decide) (by decide) usRow1990 (by decide) [] rfl⟩

/-- The model's `listlen` is the list length. -/
theorem listlen_eq_length (C : List Row) : listlen C = C.length := by
  induction C with
  | nil => rfl
  | cons a t ih => simp [listlen, ih, Nat.add_comm]

/-- With the `equal` comparator, the code's kept-row predicate is the
spec-side equality predicate. -/
theorem keepRow_equal_eq_spec (f : FieldName) (v : Value) :
    keepRow f .equal v = specFieldEquals f v := by
  funext r
  cases f <;> cases v <;> simp [keepRow, specFieldEquals]

/-- C9: `listlen` counts the records (0 on the empty collection), and
counting an `equal`-filtered collection gives the number of records of
the input whose field equals the value, within the `1e-9` tolerance on
emission fields. -/
theorem count_filter_consistency (C : List Row) (f : FieldName) (v : Value)
    (h : validPred f .equal v = true) :
    listlen [] = 0 ∧ (∀ D : List Row, listlen D = D.length) ∧
    ∃ L, filter C f .equal v = .ok L ∧
      listlen L = C.countP (specFieldEquals f v) := by
  refine ⟨rfl, listlen_eq_length, filterRows f .equal v C,
    filter_eq_ok_of_valid C f .equal v h, ?_⟩
  rw [listlen_eq_length, filterRows_eq_filter, keepRow_equal_eq_spec]
  exact (List.countP_eq_length_filter _ _).symm

/-- Witness for C9 at a concrete collection and predicate. -/
theorem count_filter_consistency_witness :
    validPred .name .equal (.vstr "Qatar") = true ∧
    (listlen [] = 0 ∧ (∀ D : List Row, listlen D = D.length) ∧
    ∃ L, filter [usRow1990, qatarRow1990, qatarRow2020] .name .equal
        (.vstr "Qatar") = .ok L ∧
      listlen L = List.countP (specFieldEquals .name (.vstr "Qatar"))
        [usRow1990, qatarRow1990, qatarRow2020]) :=
  ⟨by decide, count_filter_consistency [usRow1990, qatarRow1990, qatarRow2020]
    .name (.vstr "Qatar") (by decide)⟩

/-- C7 counterexample: a record whose field value differs from the
target by exactly `1e-9` (the boundary case the claim says is kept) is
not kept: the code compares with a strict bound. -/
theorem tolerance_boundary_excluded :
    |((1 : ℚ) / 1000000000) - (Value.vfloat 0).toRat| = tol ∧
    keepRow .energy_co2_emissions .equal (.vfloat 0) boundaryRow = false ∧
    filter [boundaryRow] .energy_co2_emissions .equal (.vfloat 0) = .ok [] := by
  have habs : |((1 : ℚ) / 1000000000) - (Value.vfloat 0).toRat| = tol := by
    rw [Value.toRat, sub_zero,
      abs_of_pos (by norm_num : (0 : ℚ) < 1 / 1000000000)]
    rfl
  have hne : ¬ (|((1 : ℚ) / 1000000000) - (Value.vfloat 0).toRat| < tol) := by
    rw [habs]
    exact lt_irrefl tol
  have hkeep : keepRow .energy_co2_emissions .equal (.vfloat 0) boundaryRow
      = false := by
    simp [keepRow, boundaryRow, mkRow, Row.emissionVal]
    simpa [Value.toRat] using hne
  refine ⟨habs, hkeep, ?_⟩
  rw [filter_eq_ok_of_valid _ _ _ _ (by decide)]
  simp [filterRows, hkeep]

/-- C7 (amended): on an emission field with a present value `v` and a
numeric target `t`, the `equal` comparator keeps the record exactly when
the absolute difference is strictly below the `1e-9` tolerance; the
boundary case of a difference exactly `1e-9` is excluded. -/
theorem filter_equal_tolerance_strict (f : FieldName) (hf : f.isEmission = true)
    (r : Row) (v : ℚ) (hr : r.emissionVal f = some v) (t : Value)
    (ht : t.isNum = true) :
    (keepRow f .equal t r = true ↔ |v - t.toRat| < tol) ∧
    filter [r] f .equal t = .ok (if |v - t.toRat| < tol then [r] else []) := by
  have hvalid : validPred f .equal t = true := by
    cases f <;> simp [FieldName.isEmission] at hf <;> simpa [validPred] using ht
  have hkeep : keepRow f .equal t r = decide (|v - t.toRat| < tol) := by
    cases f <;> simp [FieldName.isEmission] at hf <;> simp [keepRow, hr]
  constructor
  · simp [hkeep]
  · rw [filter_eq_ok_of_valid _ _ _ _ hvalid]
    by_cases hlt : |v - t.toRat| < tol <;> simp [filterRows, hkeep, hlt]

/-- Witness for the amended C7 at a concrete record just inside and a
target at distance `1e-9`. -/
theorem filter_equal_tolerance_strict_witness :
    FieldName.isEmission .energy_co2_emissions = true ∧
    Row.emissionVal boundaryRow .energy_co2_emissions =
      some ((1 : ℚ) / 1000000000) ∧
    Value.isNum (.vint 0) = true ∧
    ((keepRow .energy_co2_emissions .equal (.vint 0) boundaryRow = true ↔
      |((1 : ℚ) / 1000000000) - (Value.vint 0).toRat| < tol) ∧
    filter [boundaryRow] .energy_co2_emissions .equal (.vint 0) =
      .ok (if |((1 : ℚ) / 1000000000) - (Value.vint 0).toRat| < tol
        then [boundaryRow] else [])) :=
  ⟨by decide, rfl, by decide,
    filter_equal_tolerance_strict .energy_co2_emissions (by decide) boundaryRow
      ((1 : ℚ) / 1000000000) rfl (.vint 0) (by decide)⟩

/-- `answer_5` unfolded past its two always-valid filters: it branches on
the Luxembourg-2014 sub-collection. -/
theorem answer_5_eq (rows : List Row) :
    answer_5 rows =
      match lux2014 rows with
      | [] => .ok none
      | r :: _ =>
        match pydiv r.total_co2_emissions_excluding_lucf
          r.total_co2_emissions_excluding_lucf_per_capita with
        | .error e => .error e
        | .ok q => .ok (some q) := rfl

/-- C5: `answer_5` returns `no result` when the Luxembourg/2014 pair is
absent; when present it divides the first matching record's total by its
per-capita value, and a missing or numerically zero divisor raises a
division fault, distinct from `no result`. -/
theorem answer_5_cases (rows_a rows_b rows_c : List Row)
    (rb : Row) (tb : List Row) (rc : Row) (tc : List Row) (total_c vc : ℚ)
    (ha : lux2014 rows_a = [])
    (hb : lux2014 rows_b = rb :: tb)
    (hbd : rb.total_co2_emissions_excluding_lucf_per_capita = none ∨
      rb.total_co2_emissions_excluding_lucf_per_capita = some 0)
    (hc : lux2014 rows_c = rc :: tc)
    (hc1 : rc.total_co2_emissions_excluding_lucf = some total_c)
    (hc2 : rc.total_co2_emissions_excluding_lucf_per_capita = some vc)
    (hc3 : vc ≠ 0) :
    answer_5 rows_a = .ok none ∧
    (∃ e, answer_5 rows_b = .error e) ∧ answer_5 rows_b ≠ .ok none ∧
    answer_5 rows_c = .ok (some (total_c / vc)) := by
  have hberr : ∃ e, answer_5 rows_b = .error e := by
    rw [answer_5_eq rows_b, hb]
    rcases hbd with h | h <;>
      cases htot : rb.total_co2_emissions_excluding_lucf <;>
        simp [pydiv, h, htot]
  refine ⟨?_, hberr, ?_, ?_⟩
  · rw [answer_5_eq rows_a, ha]
  · obtain ⟨e, he⟩ := hberr
    simp [he]
  · rw [answer_5_eq rows_c, hc]
    simp [pydiv, hc1, hc2, hc3]

/-- Witness for C5 at three concrete collections: absent pair, missing
divisor, and a well-defined quotient. -/
theorem answer_5_cases_witness :
    lux2014 [] = [] ∧
    lux2014 [luxRow2014Missing] = [luxRow2014Missing] ∧
    luxRow2014Missing.total_co2_emissions_excluding_lucf_per_capita = none ∧
    lux2014 [luxRow2014] = [luxRow2014] ∧
    luxRow2014.total_co2_emissions_excluding_lucf = some 9000 ∧
    luxRow2014.total_co2_emissions_excluding_lucf_per_capita = some 16 ∧
    (16 : ℚ) ≠ 0 ∧
    (answer_5 [] = .ok none ∧
      (∃ e, answer_5 [luxRow2014Missing] = .error e) ∧
      answer_5 [luxRow2014Missing] ≠ .ok none ∧
      answer_5 [luxRow2014] = .ok (some ((9000 : ℚ) / 16))) :=
  ⟨rfl, rfl, rfl, rfl, rfl, rfl, by norm_num,
    answer_5_cases [] [luxRow2014Missing] [luxRow2014] luxRow2014Missing []
      luxRow2014 [] 9000 16 rfl rfl (Or.inl rfl) rfl rfl rfl (by norm_num)⟩

/-- `answer_3` unfolded past its always-valid filters: it branches on the
United States 1990 sub-collection. -/
theorem answer_3_eq (rows : List Row) :
    answer_3 rows =
      match usYear 1990 rows with
      | [] => .ok []
      | r :: _ =>
        filter (filterRows .year .equal (.vint 1990) rows)
          .total_co2_emissions_excluding_lucf_per_capita .greater_than
          (optToValue r.total_co2_emissions_excluding_lucf_per_capita) := rfl

/-- `answer_4` unfolded past its always-valid filters: it branches on the
United States 2020 sub-collection. -/
theorem answer_4_eq (rows : List Row) :
    answer_4 rows =
      match usYear 2020 rows with
      | [] => .ok []
      | r :: _ =>
        filter (filterRows .year .equal (.vint 2020) rows)
          .total_co2_emissions_excluding_lucf_per_capita .greater_than
          (optToValue r.total_co2_emissions_excluding_lucf_per_capita) := rfl

/-- Membership in the year-then-greater-than composition of the outlier
queries: a record is kept exactly when it is in the input, has the given
year, and its per-capita total is present and strictly above the
reference value. -/
theorem mem_year_percap_filter (y : Int) (v : ℚ) (C : List Row) (s : Row) :
    s ∈ filterRows .total_co2_emissions_excluding_lucf_per_capita
        .greater_than (.vfloat v) (filterRows .year .equal (.vint y) C) ↔
      s ∈ C ∧ s.year = y ∧
        ∃ w, s.total_co2_emissions_excluding_lucf_per_capita = some w ∧
          v < w := by
  have hy : (keepRow .year .equal (.vint y) s = true) ↔ s.year = y := by
    simp [keepRow]
  have hp : (keepRow .total_co2_emissions_excluding_lucf_per_capita
      .greater_than (.vfloat v) s = true) ↔
      ∃ w, s.total_co2_emissions_excluding_lucf_per_capita = some w ∧
        v < w := by
    cases ho : s.total_co2_emissions_excluding_lucf_per_capita <;>
      simp [keepRow, Row.emissionVal, Value.toRat, ho, GT.gt]
  rw [filterRows_eq_filter, filterRows_eq_filter]
  simp only [List.mem_filter, hy, hp, and_assoc]

/-- C4 counterexample: a collection whose only record is a United States
1990 row with a missing per-capita total makes `answer_3` raise an
`InvalidPredicate` error instead of returning a sub-collection or
`no result`. -/
theorem answer_3_missing_value_ce :
    answer_3 [usRow1990Missing] =
      .error "numeric comparison value must be int or float" := rfl

/-- C4 (amended): for every collection, each query independently:
`answer_3` (resp. `answer_4`) returns `no result` when the United States
has no 1990 (resp. 2020) row; when the first matching United States
row's per-capita total is present with value `v`, it returns the
sub-collection of the rows of that year whose per-capita total is
present and strictly greater than `v`; when that value is missing it
raises an `InvalidPredicate` error instead (see the counterexample and
C10).  The case split on the right-hand sides is exhaustive, and the
last two conjuncts spell out which records the returned sub-collection
holds. -/
theorem answer_3_4_reference_comparison (rows : List Row) :
    answer_3 rows =
      (match usYear 1990 rows with
       | [] => Except.ok []
       | r :: _ =>
         match r.total_co2_emissions_excluding_lucf_per_capita with
         | none => Except.error "numeric comparison value must be int or float"
         | some v =>
           Except.ok (filterRows .total_co2_emissions_excluding_lucf_per_capita
             .greater_than (.vfloat v)
             (filterRows .year .equal (.vint 1990) rows))) ∧
    answer_4 rows =
      (match usYear 2020 rows with
       | [] => Except.ok []
       | r :: _ =>
         match r.total_co2_emissions_excluding_lucf_per_capita with
         | none => Except.error "numeric comparison value must be int or float"
         | some v =>
           Except.ok (filterRows .total_co2_emissions_excluding_lucf_per_capita
             .greater_than (.vfloat v)
             (filterRows .year .equal (.vint 2020) rows))) ∧
    (∀ v : ℚ, ∀ s : Row,
      s ∈ filterRows .total_co2_emissions_excluding_lucf_per_capita
        .greater_than (.vfloat v) (filterRows .year .equal (.vint 1990) rows) ↔
      s ∈ rows ∧ s.year = 1990 ∧
        ∃ w, s.total_co2_emissions_excluding_lucf_per_capita = some w ∧
          v < w) ∧
    (∀ v : ℚ, ∀ s : Row,
      s ∈ filterRows .total_co2_emissions_excluding_lucf_per_capita
        .greater_than (.vfloat v) (filterRows .year .equal (.vint 2020) rows) ↔
      s ∈ rows ∧ s.year = 2020 ∧
        ∃ w, s.total_co2_emissions_excluding_lucf_per_capita = some w ∧
          v < w) := by
  refine ⟨?_, ?_, fun v s => mem_year_percap_filter 1990 v rows s,
    fun v s => mem_year_percap_filter 2020 v rows s⟩
  · rw [answer_3_eq rows]
    cases h : usYear 1990 rows with
    | nil => rfl
    | cons r t =>
      cases hv : r.total_co2_emissions_excluding_lucf_per_capita with
      | none => simp [hv, optToValue, filter, Value.isNum]
      | some v =>
        simp only [hv, optToValue]
        exact filter_eq_ok_of_valid
          (filterRows .year .equal (.vint 1990) rows)
          .total_co2_emissions_excluding_lucf_per_capita .greater_than
          (.vfloat v) rfl
  · rw [answer_4_eq rows]
    cases h : usYear 2020 rows with
    | nil => rfl
    | cons r t =>
      cases hv : r.total_co2_emissions_excluding_lucf_per_capita with
      | none => simp [hv, optToValue, filter, Value.isNum]
      | some v =>
        simp only [hv, optToValue]
        exact filter_eq_ok_of_valid
          (filterRows .year .equal (.vint 2020) rows)
          .total_co2_emissions_excluding_lucf_per_capita .greater_than
          (.vfloat v) rfl

/-- C10: when the first United States row of the reference year exists
but its per-capita total is missing, `answer_3` (resp. `answer_4`)
raises the `InvalidPredicate` validation error, because the missing
value is passed to `filter` as the numeric comparison value. -/
theorem answer_3_4_missing_us_value (rows1 rows2 : List Row)
    (r1 : Row) (t1 : List Row) (r2 : Row) (t2 : List Row)
    (h1 : usYear 1990 rows1 = r1 :: t1)
    (h1m : r1.total_co2_emissions_excluding_lucf_per_capita = none)
    (h2 : usYear 2020 rows2 = r2 :: t2)
    (h2m : r2.total_co2_emissions_excluding_lucf_per_capita = none) :
    answer_3 rows1 = .error "numeric comparison value must be int or float" ∧
    answer_4 rows2 = .error "numeric comparison value must be int or float" := by
  constructor
  · rw [answer_3_eq rows1, h1]
    simp [h1m, optToValue, filter, Value.isNum]
  · rw [answer_4_eq rows2, h2]
    simp [h2m, optToValue, filter, Value.isNum]

/-- Witness for C10 at concrete collections whose United States rows have
missing per-capita totals. -/
theorem answer_3_4_missing_us_value_witness :
    usYear 1990 [usRow1990Missing] = [usRow1990Missing] ∧
    usRow1990Missing.total_co2_emissions_excluding_lucf_per_capita = none ∧
    usYear 2020 [usRow2020Missing] = [usRow2020Missing] ∧
    usRow2020Missing.total_co2_emissions_excluding_lucf_per_capita = none ∧
    (answer_3 [usRow1990Missing] =
      .error "numeric comparison value must be int or float" ∧
    answer_4 [usRow2020Missing] =
      .error "numeric comparison value must be int or float") :=
  ⟨rfl, rfl, rfl, rfl,
    answer_3_4_missing_us_value [usRow1990Missing] [usRow2020Missing]
      usRow1990Missing [] usRow2020Missing [] rfl rfl rfl rfl⟩

/-- `answer_6` unfolded past its always-valid filters: it branches on the
China 1990 and China 2020 sub-collections. -/
theorem answer_6_eq (rows : List Row) :
    answer_6 rows =
      match chinaYear 1990 rows, chinaYear 2020 rows with
      | [], _ => .ok none
      | _, [] => .ok none
      | r90 :: _, r20 :: _ =>
        match pydiv r20.electricity_and_heat_co2_emissions
          r90.electricity_and_heat_co2_emissions with
        | .error e => .error e
        | .ok q => .ok (some q) := rfl

/-- `answer_7` unfolded past its always-valid filters. -/
theorem answer_7_eq (rows : List Row) :
    answer_7 rows =
      match chinaYear 1990 rows, chinaYear 2020 rows with
      | [], _ => .ok none
      | _, [] => .ok none
      | r90 :: _, r20 :: _ =>
        match pydiv r20.electricity_and_heat_co2_emissions
          r90.electricity_and_heat_co2_emissions with
        | .error e => .error e
        | .ok q =>
          .ok (some ((((r20.electricity_and_heat_co2_emissions).getD 0 : ℚ) : ℂ) *
            ((q : ℂ) ^ ((1 : ℂ) / 30)) ^ (50 : ℕ))) := rfl

/-- A division whose divisor is missing or zero, or whose numerator is
missing, always faults. -/
theorem pydiv_fault (a b : Option ℚ)
    (h : b = none ∨ b = some 0 ∨ a = none) :
    ∃ e, pydiv a b = .error e := by
  rcases h with h | h | h
  · cases a <;> simp [pydiv, h]
  · cases a <;> simp [pydiv, h]
  · cases b with
    | none => simp [pydiv, h]
    | some y => by_cases hy : y = 0 <;> simp [pydiv, h, hy]

/-- C6 counterexample: with China rows present for both years but the
1990 electricity-and-heat value missing, `answer_6` raises a
missing-value division fault, which the claim says can never happen. -/
theorem answer_6_fault_ce :
    answer_6 [chinaRow1990Missing, chinaRow2020] =
      .error "TypeError: unsupported operand type for /" := rfl

/-- C6 (amended): `answer_6` and `answer_7` return `no result` exactly
when China's rows for 1990 or 2020 are absent (stated as an equivalence
on an arbitrary collection); when both years are present, the first
1990 row's electricity-and-heat value is present and nonzero and the
first 2020 row's value is present, they return their documented ratio
and projection; and when both years are present but the 1990 value is
missing or zero, or the 2020 value is missing, both raise a division or
missing-value fault — so division faults are not confined to query 5. -/
theorem answer_6_7_growth_projection (rows0 rowsP rowsF : List Row)
    (r90 : Row) (t90 : List Row) (r20 : Row) (t20 : List Row) (a b : ℚ)
    (hP90 : chinaYear 1990 rowsP = r90 :: t90)
    (hP20 : chinaYear 2020 rowsP = r20 :: t20)
    (ha : r90.electricity_and_heat_co2_emissions = some a) (ha0 : a ≠ 0)
    (hb : r20.electricity_and_heat_co2_emissions = some b)
    (rF90 : Row) (tF90 : List Row) (rF20 : Row) (tF20 : List Row)
    (hF90 : chinaYear 1990 rowsF = rF90 :: tF90)
    (hF20 : chinaYear 2020 rowsF = rF20 :: tF20)
    (hFbad : rF90.electricity_and_heat_co2_emissions = none ∨
      rF90.electricity_and_heat_co2_emissions = some 0 ∨
      rF20.electricity_and_heat_co2_emissions = none) :
    (answer_6 rows0 = .ok none ↔
      chinaYear 1990 rows0 = [] ∨ chinaYear 2020 rows0 = []) ∧
    (answer_7 rows0 = .ok none ↔
      chinaYear 1990 rows0 = [] ∨ chinaYear 2020 rows0 = []) ∧
    answer_6 rowsP = .ok (some (b / a)) ∧
    answer_7 rowsP = .ok (some ((b : ℂ) *
      (((b / a : ℚ) : ℂ) ^ ((1 : ℂ) / 30)) ^ (50 : ℕ))) ∧
    (∃ e, answer_6 rowsF = .error e) ∧
    (∃ e, answer_7 rowsF = .error e) := by
  obtain ⟨e, he⟩ := pydiv_fault rF20.electricity_and_heat_co2_emissions
    rF90.electricity_and_heat_co2_emissions hFbad
  refine ⟨?_, ?_, ?_, ?_, ?_, ?_⟩
  · rw [answer_6_eq rows0]
    cases h90 : chinaYear 1990 rows0 with
    | nil => cases h20 : chinaYear 2020 rows0 <;> simp
    | cons s90 u90 =>
      cases h20 : chinaYear 2020 rows0 with
      | nil => simp
      | cons s20 u20 =>
        cases hd : pydiv s20.electricity_and_heat_co2_emissions
          s90.electricity_and_heat_co2_emissions <;> simp [hd]
  · rw [answer_7_eq rows0]
    cases h90 : chinaYear 1990 rows0 with
    | nil => cases h20 : chinaYear 2020 rows0 <;> simp
    | cons s90 u90 =>
      cases h20 : chinaYear 2020 rows0 with
      | nil => simp
      | cons s20 u20 =>
        cases hd : pydiv s20.electricity_and_heat_co2_emissions
          s90.electricity_and_heat_co2_emissions <;> simp [hd]
  · rw [answer_6_eq rowsP, hP90, hP20]
    simp [pydiv, ha, hb, ha0]
  · rw [answer_7_eq rowsP, hP90, hP20]
    simp [pydiv, ha, hb, ha0]
  · rw [answer_6_eq rowsF, hF90, hF20]
    simp [he]
  · rw [answer_7_eq rowsF, hF90, hF20]
    simp [he]

/-- Witness for the amended C6 at three concrete collections: absent
years, clean values, and a missing 1990 value. -/
theorem answer_6_7_growth_projection_witness :
    chinaYear 1990 [chinaRow1990, chinaRow2020] = [chinaRow1990] ∧
    chinaYear 2020 [chinaRow1990, chinaRow2020] = [chinaRow2020] ∧
    chinaRow1990.electricity_and_heat_co2_emissions = some 700 ∧
    (700 : ℚ) ≠ 0 ∧
    chinaRow2020.electricity_and_heat_co2_emissions = some 5600 ∧
    chinaYear 1990 [chinaRow1990Missing, chinaRow2020] =
      [chinaRow1990Missing] ∧
    chinaYear 2020 [chinaRow1990Missing, chinaRow2020] = [chinaRow2020] ∧
    chinaRow1990Missing.electricity_and_heat_co2_emissions = none ∧
    ((answer_6 [] = .ok none ↔
      chinaYear 1990 ([] : List Row) = [] ∨
      chinaYear 2020 ([] : List Row) = []) ∧
    (answer_7 [] = .ok none ↔
      chinaYear 1990 ([] : List Row) = [] ∨
      chinaYear 2020 ([] : List Row) = []) ∧
    answer_6 [chinaRow1990, chinaRow2020] = .ok (some ((5600 : ℚ) / 700)) ∧
    answer_7 [chinaRow1990, chinaRow2020] = .ok (some ((5600 : ℂ) *
      ((((5600 : ℚ) / 700 : ℚ) : ℂ) ^ ((1 : ℂ) / 30)) ^ (50 : ℕ))) ∧
    (∃ e, answer_6 [chinaRow1990Missing, chinaRow2020] = .error e) ∧
    (∃ e, answer_7 [chinaRow1990Missing, chinaRow2020] = .error e)) :=
  ⟨rfl, rfl, rfl, by norm_num, rfl, rfl, rfl, rfl,
    answer_6_7_growth_projection [] [chinaRow1990, chinaRow2020]
      [chinaRow1990Missing, chinaRow2020] chinaRow1990 [] chinaRow2020 []
      700 5600 rfl rfl rfl (by norm_num) rfl chinaRow1990Missing []
      chinaRow2020 [] rfl rfl (Or.inl rfl)⟩

end CO2Stats
